import Mathlib

set_option maxRecDepth 200000

/-!
Verification of the in-memory model of `display_switcher.py` (macOS display
switcher).  The Python source is embedded shallowly: Python strings become
`List Char`, Python `int` becomes `Int`, Python dictionaries keyed by strings
become association lists, fallible code (Python exceptions: `IndexError`,
`ValueError`) becomes `Option`.  Each definition is a direct translation of
the corresponding Python function or code block, with the source line numbers
recorded in its doc comment.
-/

/-- Python `str.isspace` characters relevant here (ASCII whitespace: the
characters matched by `\s` and stripped by `str.strip()`). -/
def isPySpace (c : Char) : Bool :=
  c == ' ' || c == '\t' || c == '\n' || c == '\r' || c == '\x0b' || c == '\x0c'

/-- Python `str.strip()` (no argument): remove whitespace from both ends. -/
def pyStrip (s : List Char) : List Char :=
  ((s.dropWhile isPySpace).reverse.dropWhile isPySpace).reverse

/-- Python `str.strip(chars)`: remove any of the given characters from both
ends (used for `strip('()')` on the origin coordinate). -/
def pyStripChars (cs s : List Char) : List Char :=
  ((s.dropWhile (fun c => cs.contains c)).reverse.dropWhile (fun c => cs.contains c)).reverse

/-- Locate the leftmost occurrence of `sep` in `s`, returning the part before
it and the part after it.  Returns `none` when `sep` does not occur (or when
`sep` is empty, a case Python rejects and this program never exercises). -/
def firstSplit (sep : List Char) : List Char → Option (List Char × List Char)
  | [] => none
  | c :: rest =>
    if sep ≠ [] ∧ sep.isPrefixOf (c :: rest) then
      some ([], (c :: rest).drop sep.length)
    else
      (firstSplit sep rest).map (fun p => (c :: p.1, p.2))

/-- Fuel-driven worker for `pySplit`; the fuel only forces structural
recursion (so that the kernel can evaluate it) and, at `pySplit`'s starting
fuel `s.length + 1`, never runs out, since every split strictly shortens the
remainder. -/
def pySplitF (sep : List Char) : Nat → List Char → List (List Char)
  | 0, s => [s]
  | fuel + 1, s =>
    match firstSplit sep s with
    | none => [s]
    | some (b, a) => b :: pySplitF sep fuel a

/-- Python `str.split(sep)` for a non-empty separator: split at every
non-overlapping occurrence of `sep`, left to right, keeping empty pieces. -/
def pySplit (sep s : List Char) : List (List Char) :=
  pySplitF sep (s.length + 1) s

/-- Python `needle in haystack` substring test. -/
def containsSub (needle hay : List Char) : Bool :=
  hay.tails.any (fun t => needle.isPrefixOf t)

/-- Python `s.startswith(lit)`; on success drop the literal prefix. -/
def dropLit (lit s : List Char) : Option (List Char) :=
  if lit.isPrefixOf s then some (s.drop lit.length) else none

/-- Maximal run of decimal digits at the front (the greedy `\d+` of the mode
regular expression), together with the remainder. -/
def takeDigits (s : List Char) : List Char × List Char :=
  (s.takeWhile Char.isDigit, s.dropWhile Char.isDigit)

/-- Numeric value of a list of decimal digits. -/
def digitsToNat (ds : List Char) : Nat :=
  ds.foldl (fun a c => a * 10 + (c.toNat - 48)) 0

/-- Validity of a digit body for Python `int()`: non-empty, decimal digits
with optional single underscores strictly between digits. -/
def pyIntBodyOk (t : List Char) : Bool :=
  decide (t ≠ []) &&
  t.all (fun c => c.isDigit || c == '_') &&
  (match t.head? with | some c => c.isDigit | none => false) &&
  (match t.getLast? with | some c => c.isDigit | none => false) &&
  !(containsSub ['_', '_'] t)

/-- Python `int(s)` on an ASCII string: strip whitespace, optional sign,
decimal digits (with underscore separators); `none` models `ValueError`. -/
def pyIntOfChars (s : List Char) : Option Int :=
  let t := pyStrip s
  match t with
  | '+' :: rest =>
    if pyIntBodyOk rest then some ((digitsToNat (rest.filter (fun c => c ≠ '_')) : Nat) : Int) else none
  | '-' :: rest =>
    if pyIntBodyOk rest then some (-((digitsToNat (rest.filter (fun c => c ≠ '_')) : Nat) : Int)) else none
  | _ =>
    if pyIntBodyOk t then some ((digitsToNat (t.filter (fun c => c ≠ '_')) : Nat) : Int) else none

/-- Python list indexing `l[i]` with negative-index wraparound; `none` models
`IndexError`. -/
def pyListGet {α : Type} (l : List α) (i : Int) : Option α :=
  if 0 ≤ i then l[i.toNat]?
  else if 0 ≤ i + l.length then l[(i + l.length).toNat]?
  else none

/-- Replace the element a Python expression `l[i]` refers to (used to model
mutation, through the list position, of the object fetched by `l[i]`;
this program never aliases one object at two list positions). -/
def pyListSet {α : Type} (l : List α) (i : Int) (a : α) : List α :=
  if 0 ≤ i then l.set i.toNat a else l.set (i + l.length).toNat a

/-- Python `dict` assignment `m[k] = v`: overwrite the existing entry for `k`
or append a fresh one. -/
def dictSet (m : List (String × Int)) (k : String) (v : Int) : List (String × Int) :=
  match m with
  | [] => [(k, v)]
  | (k', v') :: rest => if k' = k then (k, v) :: rest else (k', v') :: dictSet rest k v

/-- Python `dict.get(k, d)`. -/
def dictGetD (m : List (String × Int)) (k : String) (d : Int) : Int :=
  match m with
  | [] => d
  | (k', v) :: rest => if k' = k then v else dictGetD rest k d

/-- One selectable configuration for a display (`DisplayMode` dataclass,
source lines 23-41). -/
structure DisplayMode where
  mode_num : Int
  resolution : String
  hertz : Int
  color_depth : Int
  scaling : Bool
deriving DecidableEq

/-- The `x` separator of a `<width>x<height>` resolution string. -/
def litX : List Char := ("x").data

/-- `DisplayMode.width` (source lines 31-33): `int(resolution.split('x')[0])`;
`none` models the `IndexError`/`ValueError` the property can raise. -/
def DisplayMode.widthO (m : DisplayMode) : Option Int :=
  ((pySplit litX m.resolution.data)[0]?).bind pyIntOfChars

/-- Total version of `DisplayMode.width`; modes built by the parser always
have a `<digits>x<digits>` resolution, for which the default is never used. -/
def DisplayMode.width (m : DisplayMode) : Int :=
  m.widthO.getD 0

/-- One physical display (`Display` dataclass, source lines 43-63). -/
structure Display where
  persistent_id : String
  contextual_id : String
  serial_id : String
  display_type : String
  current_resolution : String
  current_hertz : Int
  origin : Int × Int
  current_mode : Int
  modes : List DisplayMode
deriving DecidableEq

/-- The sort key of source line 183: `(not m.scaling, -m.width, -m.hertz)`;
Python booleans compare as the integers 0 and 1. -/
def modeKey (m : DisplayMode) : Int × Int × Int :=
  (if m.scaling then 0 else 1, -m.width, -m.hertz)

/-- Lexicographic comparison of two sort keys, as Python compares tuples. -/
def keyLe (a b : Int × Int × Int) : Prop :=
  a.1 < b.1 ∨ (a.1 = b.1 ∧ (a.2.1 < b.2.1 ∨ (a.2.1 = b.2.1 ∧ a.2.2 ≤ b.2.2)))

instance : DecidableRel keyLe := fun a b => by
  unfold keyLe; infer_instance

/-- The mode ordering established by `display.modes.sort(key=...)` on source
line 183: high-density (scaling) modes first, then descending width, then
descending refresh rate. -/
def modeLe (a b : DisplayMode) : Prop :=
  keyLe (modeKey a) (modeKey b)

instance : DecidableRel modeLe := fun a b => by
  unfold modeLe; infer_instance

instance : IsTotal DisplayMode modeLe :=
  ⟨by intro a b; unfold modeLe keyLe; omega⟩

instance : IsTrans DisplayMode modeLe :=
  ⟨by intro a b c hab hbc; unfold modeLe keyLe at *; omega⟩

/-- `display.modes.sort(key=lambda m: (not m.scaling, -m.width, -m.hertz))`
(source line 183): a stable ascending sort by `modeKey`, modelled by
insertion sort (stable, like Python's sort). -/
def sortModes (ms : List DisplayMode) : List DisplayMode :=
  List.insertionSort modeLe ms

/-- Marker that qualifies a block as a display record (source line 121). -/
def kwPersistent : List Char := ("Persistent screen id:").data

/-- Line prefixes recognised by the scalar-field loop (source lines 137-153). -/
def kwContextual : List Char := ("Contextual screen id:").data

def kwSerial : List Char := ("Serial screen id:").data

def kwType : List Char := ("Type:").data

def kwResolution : List Char := ("Resolution:").data

def kwHertz : List Char := ("Hertz:").data

def kwOrigin : List Char := ("Origin:").data

/-- Marker opening the modes sub-section (source line 160). -/
def kwModesSection : List Char := ("Resolutions for ro" ++ "tation").data

/-- Pieces of the mode-line regular expression of source line 165. -/
def kwModeSp : List Char := ("mode ").data

def kwColonRes : List Char := (": res:").data

def kwHzColon : List Char := (" hz:").data

def kwDepthColon : List Char := (" color_depth:").data

def kwScalingOn : List Char := ("scaling:on").data

def kwCurrentMode : List Char := ("<-- current mode").data

/-- Separators used by the parser. -/
def litNl : List Char := ("\n").data

def litNlNl : List Char := ("\n\n").data

def litColonSp : List Char := (": ").data

def litSpDashSp : List Char := (" - ").data

def litParens : List Char := ("()").data

def litComma : List Char := (",").data

/-- Scalar fields accumulated for one display block: the `display_data`
dictionary of source lines 126-135, with its initial values. -/
structure RawFields where
  persistent_id : List Char
  contextual_id : List Char
  serial_id : List Char
  display_type : List Char
  current_resolution : List Char
  current_hertz : Int
  origin : Int × Int
  current_mode : Int

/-- Initial `display_data` values (source lines 126-135). -/
def initFields : RawFields :=
  { persistent_id := [], contextual_id := [], serial_id := [], display_type := []
  , current_resolution := [], current_hertz := 0, origin := (0, 0), current_mode := -1 }

/-- `line.split(': ')[1]` (the value part of a `key: value` line); `none`
models the `IndexError` raised when the line has no `': '`. -/
def fieldValue (line : List Char) : Option (List Char) :=
  (pySplit litColonSp line)[1]?

/-- One iteration of the scalar-field loop of source lines 137-153: match the
known line prefixes in order; unmatched lines leave the fields unchanged. -/
def applyScalarLine (f : RawFields) (line : List Char) : Option RawFields :=
  if kwPersistent.isPrefixOf line then
    (fieldValue line).map (fun v => { f with persistent_id := v })
  else if kwContextual.isPrefixOf line then
    (fieldValue line).map (fun v => { f with contextual_id := v })
  else if kwSerial.isPrefixOf line then
    (fieldValue line).map (fun v => { f with serial_id := v })
  else if kwType.isPrefixOf line then
    (fieldValue line).map (fun v => { f with display_type := v })
  else if kwResolution.isPrefixOf line then
    (fieldValue line).map (fun v => { f with current_resolution := v })
  else if kwHertz.isPrefixOf line then
    (fieldValue line).bind (fun v => (pyIntOfChars v).map (fun n => { f with current_hertz := n }))
  else if kwOrigin.isPrefixOf line then do
    let v ← fieldValue line
    let originStr ← (pySplit litSpDashSp v)[0]?
    let coords := pySplit litComma (pyStripChars litParens originStr)
    let c0 ← coords[0]?
    let c1 ← coords[1]?
    let x ← pyIntOfChars c0
    let y ← pyIntOfChars c1
    some { f with origin := (x, y) }
  else
    some f

/-- The mode-line regular expression of source line 165,
`\s*mode (\d+): res:(\d+x\d+) hz:(\d+) color_depth:(\d+)(.*)$`, applied with
`re.match` (anchored at the start of the line).  Returns the mode ordinal,
the resolution string, the refresh rate, the colour depth and the trailing
annotation text. -/
def matchModeLine (line : List Char) : Option (Int × List Char × Int × Int × List Char) := do
  let r1 ← dropLit kwModeSp (line.dropWhile isPySpace)
  let (dNum, r2) := takeDigits r1
  if dNum = [] then none else
  do
  let r3 ← dropLit kwColonRes r2
  let (dW, r4) := takeDigits r3
  if dW = [] then none else
  do
  let r5 ← dropLit litX r4
  let (dH, r6) := takeDigits r5
  if dH = [] then none else
  do
  let r7 ← dropLit kwHzColon r6
  let (dHz, r8) := takeDigits r7
  if dHz = [] then none else
  do
  let r9 ← dropLit kwDepthColon r8
  let (dDep, r10) := takeDigits r9
  if dDep = [] then none else
  some ((digitsToNat dNum : Nat), dW ++ 'x' :: dH, (digitsToNat dHz : Nat),
        (digitsToNat dDep : Nat), r10)

/-- The modes loop of source lines 157-180: scan the block's lines, enter the
modes sub-section at its marker, collect every line matching the mode
pattern, and record the ordinal of the line carrying the current-mode
marker (`cur` starts from the Display's initial `current_mode`, -1). -/
def collectModes : List (List Char) → Bool → List DisplayMode → Int →
    List DisplayMode × Int
  | [], _, acc, cur => (acc, cur)
  | line :: rest, inSec, acc, cur =>
    if kwModesSection.isPrefixOf line then
      collectModes rest true acc cur
    else if inSec && kwModeSp.isPrefixOf (pyStrip line) then
      match matchModeLine line with
      | some (n, res, hz, dep, extra) =>
        let m : DisplayMode :=
          { mode_num := n, resolution := res.asString, hertz := hz
          , color_depth := dep, scaling := containsSub kwScalingOn extra }
        collectModes rest inSec (acc ++ [m])
          (if containsSub kwCurrentMode extra then n else cur)
      | none => collectModes rest inSec acc cur
    else
      collectModes rest inSec acc cur

/-- Parse one qualifying display block (source lines 124-183): extract the
scalar fields, build the `Display`, collect its modes and sort them. -/
def parseBlock (block : List Char) : Option Display := do
  let lines := pySplit litNl (pyStrip block)
  let f ← lines.foldlM applyScalarLine initFields
  let (ms, cur) := collectModes lines false [] f.current_mode
  some { persistent_id := f.persistent_id.asString
       , contextual_id := f.contextual_id.asString
       , serial_id := f.serial_id.asString
       , display_type := f.display_type.asString
       , current_resolution := f.current_resolution.asString
       , current_hertz := f.current_hertz
       , origin := f.origin
       , current_mode := cur
       , modes := sortModes ms }

/-- The block loop of source lines 118-193: split the report at blank lines,
skip blocks without the persistent-id marker, and parse the rest in order. -/
def parseDisplays : List (List Char) → Option (List Display)
  | [] => some []
  | b :: rest =>
    if containsSub kwPersistent b then do
      let d ← parseBlock b
      let ds ← parseDisplays rest
      some (d :: ds)
    else
      parseDisplays rest

/-- Mutable state of the `DisplaySwitcher` controller (source lines 95-103);
the viewports are modelled separately (`Viewport` below) since only the mode
viewport's `max_height` feeds back into navigation, as a paging parameter. -/
structure SwitcherState where
  displays : List Display
  current_display_index : Int
  current_mode_indices : List (String × Int)
  status_message : String
  status_timeout : Int
deriving DecidableEq

/-- `parse_displayplacer_output` (source lines 116-193) run, as the program
does, once on a fresh `DisplaySwitcher`: build the display list and
initialise every parsed display's mode cursor to 0 (source line 191);
`none` models a parse-time exception. -/
def parse_displayplacer_output (output : String) : Option SwitcherState := do
  let ds ← parseDisplays (pySplit litNlNl output.data)
  some { displays := ds
       , current_display_index := 0
       , current_mode_indices := ds.foldl (fun m d => dictSet m d.persistent_id 0) []
       , status_message := ""
       , status_timeout := 0 }

/-- `get_current_mode_index` (source lines 195-200). -/
def get_current_mode_index (s : SwitcherState) : Option Int :=
  if s.current_display_index < (s.displays.length : Int) then
    (pyListGet s.displays s.current_display_index).map
      (fun d => dictGetD s.current_mode_indices d.persistent_id 0)
  else
    some 0

/-- `set_current_mode_index` (source lines 202-206). -/
def set_current_mode_index (s : SwitcherState) (index : Int) : Option SwitcherState :=
  if s.current_display_index < (s.displays.length : Int) then
    (pyListGet s.displays s.current_display_index).map
      (fun d => { s with current_mode_indices :=
                    dictSet s.current_mode_indices d.persistent_id index })
  else
    some s

/-- The discrete input events of the navigation loop (source lines 386-430). -/
inductive NavEvent where
  | prevDisplay
  | nextDisplay
  | prevMode
  | nextMode
  | pageUp
  | pageDown
deriving DecidableEq

/-- One navigation key handled by `draw_interface` (source lines 386-430).
`mh` is the mode viewport's `max_height` at that render pass, used only for
the paging jump `max(5, mode_viewport.max_height // 2)`. -/
def stepEvent (mh : Int) (e : NavEvent) (s : SwitcherState) : Option SwitcherState :=
  match e with
  | .prevDisplay =>
    if 1 < s.displays.length then
      some { s with current_display_index :=
               (s.current_display_index - 1).emod s.displays.length }
    else some s
  | .nextDisplay =>
    if 1 < s.displays.length then
      some { s with current_display_index :=
               (s.current_display_index + 1).emod s.displays.length }
    else some s
  | .prevMode => do
    let d ← pyListGet s.displays s.current_display_index
    if d.modes.isEmpty then some s else do
      let i ← get_current_mode_index s
      set_current_mode_index s (if i = 0 then (d.modes.length : Int) - 1 else i - 1)
  | .nextMode => do
    let d ← pyListGet s.displays s.current_display_index
    if d.modes.isEmpty then some s else do
      let i ← get_current_mode_index s
      set_current_mode_index s (if i = (d.modes.length : Int) - 1 then 0 else i + 1)
  | .pageUp => do
    let d ← pyListGet s.displays s.current_display_index
    if d.modes.isEmpty then some s else do
      let i ← get_current_mode_index s
      set_current_mode_index s (max 0 (i - max 5 (mh.fdiv 2)))
  | .pageDown => do
    let d ← pyListGet s.displays s.current_display_index
    if d.modes.isEmpty then some s else do
      let i ← get_current_mode_index s
      set_current_mode_index s (min ((d.modes.length : Int) - 1) (i + max 5 (mh.fdiv 2)))

/-- A sequence of navigation events, each taken at some viewport height. -/
def runEvents (evs : List (Int × NavEvent)) (s : SwitcherState) : Option SwitcherState :=
  evs.foldlM (fun st p => stepEvent p.1 p.2 st) s

/-- Fixed strings of `apply_mode` (source lines 441, 458-459, 472, 476). -/
def msgInvalid : String := "Error: Invalid mode"

def msgApplied : String := "✓ Applied successfully!"

def msgErrorPre : String := "Error: "

def msgFailed : String := "Failed"

/-- One `displayplacer` argument string built on source lines 458-459:
`id:<persistent id> mode:<ordinal> origin:(<x>,<y>) degree:0`. -/
def displayArg (d : Display) (modeNum : Int) : String :=
  "id:" ++ d.persistent_id ++ " mode:" ++ toString modeNum ++
    " origin:(" ++ toString d.origin.1 ++ "," ++ toString d.origin.2 ++ ") degree:0"

/-- The command-argument loop of source lines 449-460: one instruction per
display, in list order; the display compared equal (Python `==`, structural
dataclass equality) to the current display gets the selected mode's ordinal,
every other display its presently-active `current_mode`. -/
def buildCmdArgs (displays : List Display) (current : Display) (sel : DisplayMode) :
    List String :=
  displays.map (fun d => displayArg d (if d = current then sel.mode_num else d.current_mode))

/-- `apply_mode` (source lines 435-477).  `collab` is the external
`displayplacer` subprocess: `Except.ok` models exit status 0, `Except.error`
carries the captured stderr text of a failing exit.  The result pairs the
new state with the command arguments handed to the collaborator (`none` when
the collaborator was never invoked); the outer `Option` models an
uncaught `IndexError` on `displays[current_display_index]`. -/
def apply_mode (collab : List String → Except String Unit) (s : SwitcherState) :
    Option (SwitcherState × Option (List String)) := do
  let current ← pyListGet s.displays s.current_display_index
  let modeIdx ← get_current_mode_index s
  if (current.modes.length : Int) ≤ modeIdx then
    some ({ s with status_message := msgInvalid, status_timeout := 30 }, none)
  else do
    let sel ← pyListGet current.modes modeIdx
    let cmdArgs := buildCmdArgs s.displays current sel
    match collab cmdArgs with
    | .ok _ =>
      let d' := { current with
                  current_mode := sel.mode_num
                  current_resolution := sel.resolution
                  current_hertz := sel.hertz }
      some ({ s with
              displays := pyListSet s.displays s.current_display_index d'
              status_message := msgApplied
              status_timeout := 30 }, some cmdArgs)
    | .error err =>
      some ({ s with
              status_message :=
                msgErrorPre ++ (if err.data = [] then msgFailed else (pyStrip err.data).asString)
              status_timeout := 50 }, some cmdArgs)

/-- The scrollable viewport (source lines 65-93). -/
structure Viewport where
  max_height : Int
  offset : Int
  current_index : Int
deriving DecidableEq

/-- `Viewport.__init__` (source lines 67-70): `max_height = max(1, max_height)`. -/
def Viewport.init (max_height : Int) : Viewport :=
  { max_height := max 1 max_height, offset := 0, current_index := 0 }

/-- `Viewport.update` (source lines 72-81).  Python `//` is floor division,
`Int.fdiv` here. -/
def Viewport.update (v : Viewport) (total_items current_index : Int) : Viewport :=
  let center_offset := current_index - v.max_height.fdiv 2
  let max_possible_offset := max 0 (total_items - v.max_height)
  { v with current_index := current_index
         , offset := max 0 (min center_offset max_possible_offset) }

/-- `Viewport.get_visible_range` (source lines 83-87). -/
def Viewport.get_visible_range (v : Viewport) (total_items : Int) : Int × Int :=
  (v.offset, min (v.offset + v.max_height) total_items)

/-- The clamp function named by the specification. -/
def clamp (x lo hi : Int) : Int := max lo (min x hi)

/-- Outcome of `run` (source lines 479-497): the external list command failed
(exception text shown), the parse raised (exception text shown), the parse
produced zero displays, or the interactive loop was entered. -/
inductive RunOutcome where
  | collabError (msg : String)
  | parseFailed
  | noDisplays
  | interactive (s : SwitcherState)
deriving DecidableEq

/-- `run` (source lines 479-497) up to the decision point: the input is the
result of `run_displayplacer_list` (source lines 105-114, `Except.error` when
the tool is missing or exits non-zero, with the exception text). -/
def runOutcome (listResult : Except String String) : RunOutcome :=
  match listResult with
  | .error e => .collabError e
  | .ok out =>
    match parse_displayplacer_output out with
    | none => .parseFailed
    | some s => if s.displays.isEmpty then .noDisplays else .interactive s

/-- The message shown on a fatal (non-interactive) outcome, where the source
determines it: `"No displays found!"` on source line 487, `f"Error: {e}"` on
source line 495.  The text of a parse-time exception is not modelled. -/
def fatalShown : RunOutcome → Option String
  | .collabError e => some (msgErrorPre ++ e)
  | .noDisplays => some "No displays found!"
  | _ => none

/-- Whether `run` reaches `draw_interface` (source line 492). -/
def runEntersLoop : RunOutcome → Bool
  | .interactive _ => true
  | _ => false

/-- Process exit status once `run` returns: `run` catches every exception
(source lines 494-497) and returns normally in all four outcomes, so
`curses.wrapper` returns, `main` (source lines 499-537) raises nothing and
falls off its end without calling `sys.exit` — the process exits 0. -/
def exit_status_after_run (_ : RunOutcome) : Int := 0

/-- The mode cursor the model stores for display `d`: the value
`get_current_mode_index` would produce while `d` is the selected display
(`current_mode_indices.get(d.persistent_id, 0)`). -/
def cursorOfD (s : SwitcherState) (d : Display) : Int :=
  dictGetD s.current_mode_indices d.persistent_id 0

/-- Pairwise-distinct persistent identifiers. -/
def pidDistinct (ds : List Display) : Prop :=
  ds.Pairwise (fun a b => a.persistent_id ≠ b.persistent_id)

instance (ds : List Display) : Decidable (pidDistinct ds) := by
  unfold pidDistinct; infer_instance

/-- The navigation invariant: the display cursor is in range, persistent
identifiers are pairwise distinct, and every display's stored mode cursor is
non-negative and, when its mode list is non-empty, in range. -/
def NavInv (s : SwitcherState) : Prop :=
  0 ≤ s.current_display_index ∧
  s.current_display_index < (s.displays.length : Int) ∧
  pidDistinct s.displays ∧
  ∀ d ∈ s.displays,
    0 ≤ cursorOfD s d ∧ (d.modes ≠ [] → cursorOfD s d < (d.modes.length : Int))

instance (s : SwitcherState) : Decidable (NavInv s) := by
  unfold NavInv; infer_instance

/-- Modelled from the spec (claim C1's wording): one instruction per display
in list order, where the display at the target position gets the selected
mode's ordinal and every other display its presently-active ordinal.  This
is the spec-side description, to be compared against `buildCmdArgs`, which
selects the target by Python `==` instead of by position. -/
def specCmdArgs (displays : List Display) (targetIdx : Int) (sel : DisplayMode) :
    List String :=
  displays.enum.map
    (fun p => displayArg p.2 (if (p.1 : Int) = targetIdx then sel.mode_num else p.2.current_mode))

/-- The three-field update `apply_mode` performs on the target display on a
confirmed success (source lines 468-470). -/
def updApplied (d : Display) (sel : DisplayMode) : Display :=
  { d with
    current_mode := sel.mode_num
    current_resolution := sel.resolution
    current_hertz := sel.hertz }

/-- A collaborator that always reports success (exit status 0). -/
def collabOk : List String → Except String Unit := fun _ => Except.ok ()

/-- The scenario report of claim C4: two displays, the first with mode lines
1920x1080@60, 2560x1440@60, 1280x720@60 (HiDPI), in that input order. -/
def scenarioReport : String :=
  "Persistent screen id: AAA-111\n" ++
  "Contextual screen id: 1\n" ++
  "Serial screen id: s111\n" ++
  "Type: 27 inch external screen\n" ++
  "Resolution: 1920x1080\n" ++
  "Hertz: 60\n" ++
  "Color Depth: 8\n" ++
  "Origin: (0,0) - main display\n" ++
  "Resolutions for ro" ++ "tation 0:\n" ++
  "  mode 0: res:1920x1080 hz:60 color_depth:8 <-- current mode\n" ++
  "  mode 1: res:2560x1440 hz:60 color_depth:8\n" ++
  "  mode 2: res:1280x720 hz:60 color_depth:8 scaling:on\n" ++
  "\n" ++
  "Persistent screen id: BBB-222\n" ++
  "Type: MacBook built in screen\n" ++
  "Origin: (1920,0)\n" ++
  "Resolutions for ro" ++ "tation 0:\n" ++
  "  mode 0: res:1440x900 hz:60 color_depth:8 <-- current mode\n"

/-- The modes of the scenario report, as parsed. -/
def m1080 : DisplayMode :=
  { mode_num := 0, resolution := "1920x1080", hertz := 60, color_depth := 8, scaling := false }

def m1440 : DisplayMode :=
  { mode_num := 1, resolution := "2560x1440", hertz := 60, color_depth := 8, scaling := false }

def m720h : DisplayMode :=
  { mode_num := 2, resolution := "1280x720", hertz := 60, color_depth := 8, scaling := true }

def m900 : DisplayMode :=
  { mode_num := 0, resolution := "1440x900", hertz := 60, color_depth := 8, scaling := false }

/-- A report whose single display block appears twice, word for word: the
parser appends one (structurally identical) `Display` per occurrence. -/
def dupReport : String :=
  "Persistent screen id: A\n" ++
  "Origin: (0,0)\n" ++
  "Resolutions for ro" ++ "tation 0:\n" ++
  "  mode 1: res:640x480 hz:60 color_depth:8 <-- current mode\n" ++
  "  mode 5: res:800x600 hz:60 color_depth:8\n" ++
  "\n" ++
  "Persistent screen id: A\n" ++
  "Origin: (0,0)\n" ++
  "Resolutions for ro" ++ "tation 0:\n" ++
  "  mode 1: res:640x480 hz:60 color_depth:8 <-- current mode\n" ++
  "  mode 5: res:800x600 hz:60 color_depth:8\n"

def dup800 : DisplayMode :=
  { mode_num := 5, resolution := "800x600", hertz := 60, color_depth := 8, scaling := false }

def dup640 : DisplayMode :=
  { mode_num := 1, resolution := "640x480", hertz := 60, color_depth := 8, scaling := false }

def dupD : Display :=
  { persistent_id := "A", contextual_id := "", serial_id := "", display_type := ""
  , current_resolution := "", current_hertz := 0, origin := (0, 0), current_mode := 1
  , modes := [dup800, dup640] }

/-- The state `parse_displayplacer_output dupReport` produces. -/
def dupState : SwitcherState :=
  { displays := [dupD, dupD], current_display_index := 0
  , current_mode_indices := [("A", 0)], status_message := "", status_timeout := 0 }

/-- The state parsing produces for an empty report: no display blocks. -/
def emptyState : SwitcherState :=
  { displays := [], current_display_index := 0, current_mode_indices := []
  , status_message := "", status_timeout := 0 }

/-- A report whose single block repeats the mode ordinal 7 on two mode
lines, the second carrying the current-mode marker. -/
def dupOrdReport : String :=
  "Persistent screen id: D1\n" ++
  "Origin: (0,0)\n" ++
  "Resolutions for ro" ++ "tation 0:\n" ++
  "  mode 7: res:800x600 hz:60 color_depth:8\n" ++
  "  mode 7: res:640x480 hz:60 color_depth:8 <-- current mode\n"

/-- A report with two modes, distinct ordinals, and no current-mode marker:
zero modes match the display's active-mode ordinal (-1). -/
def noMarkerReport : String :=
  "Persistent screen id: D2\n" ++
  "Origin: (0,0)\n" ++
  "Resolutions for ro" ++ "tation 0:\n" ++
  "  mode 3: res:800x600 hz:60 color_depth:8\n" ++
  "  mode 4: res:640x480 hz:60 color_depth:8\n"

/-- The state `parse_displayplacer_output noMarkerReport` produces. -/
def nmState : SwitcherState :=
  { displays :=
      [ { persistent_id := "D2", contextual_id := "", serial_id := "", display_type := ""
        , current_resolution := "", current_hertz := 0, origin := (0, 0), current_mode := -1
        , modes :=
            [ { mode_num := 3, resolution := "800x600", hertz := 60, color_depth := 8, scaling := false }
            , { mode_num := 4, resolution := "640x480", hertz := 60, color_depth := 8, scaling := false } ] } ]
  , current_display_index := 0, current_mode_indices := [("D2", 0)]
  , status_message := "", status_timeout := 0 }

/-- A report with two display blocks sharing the persistent id `X`: the
first display has six modes, the second only two. -/
def sharedPidReport : String :=
  "Persistent screen id: X\n" ++
  "Origin: (0,0)\n" ++
  "Resolutions for ro" ++ "tation 0:\n" ++
  "  mode 0: res:3840x2160 hz:60 color_depth:8 <-- current mode\n" ++
  "  mode 1: res:2560x1440 hz:60 color_depth:8\n" ++
  "  mode 2: res:1920x1080 hz:60 color_depth:8\n" ++
  "  mode 3: res:1600x900 hz:60 color_depth:8\n" ++
  "  mode 4: res:1280x720 hz:60 color_depth:8\n" ++
  "  mode 5: res:800x600 hz:60 color_depth:8\n" ++
  "\n" ++
  "Persistent screen id: X\n" ++
  "Origin: (3840,0)\n" ++
  "Resolutions for ro" ++ "tation 0:\n" ++
  "  mode 0: res:1440x900 hz:60 color_depth:8 <-- current mode\n" ++
  "  mode 1: res:1024x768 hz:60 color_depth:8\n"

/-- Two displays that differ (in serial id and origin) but share the
persistent id `X`. -/
def twinA : Display :=
  { persistent_id := "X", contextual_id := "1", serial_id := "sA", display_type := "ext"
  , current_resolution := "1920x1080", current_hertz := 60, origin := (0, 0)
  , current_mode := 0, modes := [m1080] }

def twinB : Display :=
  { twinA with serial_id := "sB", origin := (1920, 0) }

/-- A state holding the two pid-sharing displays, display 0 selected. -/
def twinState : SwitcherState :=
  { displays := [twinA, twinB], current_display_index := 0
  , current_mode_indices := [("X", 0)], status_message := "", status_timeout := 0 }

/-- The two displays `scenarioReport` parses to, modes already sorted. -/
def scenD1 : Display :=
  { persistent_id := "AAA-111", contextual_id := "1", serial_id := "s111"
  , display_type := "27 inch external screen", current_resolution := "1920x1080"
  , current_hertz := 60, origin := (0, 0), current_mode := 0
  , modes := [m720h, m1440, m1080] }

def scenD2 : Display :=
  { persistent_id := "BBB-222", contextual_id := "", serial_id := ""
  , display_type := "MacBook built in screen", current_resolution := ""
  , current_hertz := 0, origin := (1920, 0), current_mode := 0
  , modes := [m900] }

/-- The state `parse_displayplacer_output scenarioReport` produces. -/
def scenState : SwitcherState :=
  { displays := [scenD1, scenD2], current_display_index := 0
  , current_mode_indices := [("AAA-111", 0), ("BBB-222", 0)]
  , status_message := "", status_timeout := 0 }


/-- A collaborator that always fails with stderr text `" boom "`. -/
def collabErr : List String → Except String Unit := fun _ => Except.error " boom "

/-- Helper for building the shared-pid counterexample modes. -/
def shMode (n : Int) (res : String) : DisplayMode :=
  { mode_num := n, resolution := res, hertz := 60, color_depth := 8, scaling := false }

/-- The two displays `sharedPidReport` parses to: both carry persistent id
`X`; the first has six modes, the second two. -/
def shA : Display :=
  { persistent_id := "X", contextual_id := "", serial_id := "", display_type := ""
  , current_resolution := "", current_hertz := 0, origin := (0, 0), current_mode := 0
  , modes := [shMode 0 "3840x2160", shMode 1 "2560x1440", shMode 2 "1920x1080"
             , shMode 3 "1600x900", shMode 4 "1280x720", shMode 5 "800x600"] }

def shB : Display :=
  { persistent_id := "X", contextual_id := "", serial_id := "", display_type := ""
  , current_resolution := "", current_hertz := 0, origin := (3840, 0), current_mode := 0
  , modes := [shMode 0 "1440x900", shMode 1 "1024x768"] }

/-- The states of the shared-pid trace: after parsing, after page-down
(cursor 5 stored under the shared key `X`), after next-display. -/
def shState0 : SwitcherState :=
  { displays := [shA, shB], current_display_index := 0
  , current_mode_indices := [("X", 0)], status_message := "", status_timeout := 0 }

def shState1 : SwitcherState :=
  { shState0 with current_mode_indices := [("X", 5)] }

def shState2 : SwitcherState :=
  { shState1 with current_display_index := 1 }

/-! ### Helper lemmas -/

theorem dictGetD_dictSet_self (m : List (String × Int)) (k : String) (v d : Int) :
    dictGetD (dictSet m k v) k d = v := by
  induction m with
  | nil => simp [dictSet, dictGetD]
  | cons p rest ih =>
    obtain ⟨k', v'⟩ := p
    by_cases h : k' = k
    · simp [dictSet, dictGetD, h]
    · simp [dictSet, dictGetD, h, ih]

theorem dictGetD_dictSet_ne (m : List (String × Int)) {k k' : String} (v d : Int)
    (h : k' ≠ k) : dictGetD (dictSet m k v) k' d = dictGetD m k' d := by
  induction m with
  | nil => simp [dictSet, dictGetD, Ne.symm h]
  | cons p rest ih =>
    obtain ⟨k0, v0⟩ := p
    by_cases h0 : k0 = k
    · subst h0
      simp [dictSet, dictGetD, Ne.symm h]
    · simp [dictSet, dictGetD, h0, ih]

theorem pyListGet_nonneg {α : Type} (l : List α) (i : Int) (h : 0 ≤ i) :
    pyListGet l i = l[i.toNat]? := by
  simp [pyListGet, h]

theorem pyListGet_some_lt {α : Type} {l : List α} {i : Int} {a : α}
    (h : pyListGet l i = some a) : i < (l.length : Int) := by
  unfold pyListGet at h
  split at h
  · rename_i h0
    obtain ⟨hlt, -⟩ := List.getElem?_eq_some_iff.mp h
    omega
  · rename_i h0
    split at h
    · omega
    · exact absurd h (by simp)

theorem pyListGet_nonneg_some {α : Type} {l : List α} {i : Int} {a : α}
    (h0 : 0 ≤ i) (h : pyListGet l i = some a) :
    ∃ hlt : i.toNat < l.length, l[i.toNat] = a := by
  rw [pyListGet_nonneg l i h0] at h
  have := List.getElem?_eq_some_iff.mp h
  obtain ⟨hlt, he⟩ := this
  exact ⟨hlt, he⟩

theorem pyListGet_mem {α : Type} {l : List α} {i : Int} {a : α}
    (h : pyListGet l i = some a) : a ∈ l := by
  unfold pyListGet at h
  split at h
  · exact List.getElem?_mem h
  · split at h
    · exact List.getElem?_mem h
    · exact absurd h (by simp)

/-! ### Claim theorems -/

/-- C5: for every call to `Viewport.update total_items current_index` with
`total_items ≥ 0` and stored `max_height ≥ 1`, the resulting offset equals
`clamp (current_index - max_height / 2) 0 (max 0 (total_items - max_height))`
(floor division); hence the offset is never negative,
`offset + max_height ≤ total_items` whenever `total_items ≥ max_height`, and
the offset is 0 whenever `total_items ≤ max_height`, for any
`current_index`. -/
theorem C5_viewport_update (v : Viewport) (total ci : Int)
    (hmh : 1 ≤ v.max_height) (ht : 0 ≤ total) :
    (v.update total ci).offset =
        clamp (ci - v.max_height.fdiv 2) 0 (max 0 (total - v.max_height)) ∧
    0 ≤ (v.update total ci).offset ∧
    (v.max_height ≤ total → (v.update total ci).offset + v.max_height ≤ total) ∧
    (total ≤ v.max_height → (v.update total ci).offset = 0) := by
  unfold Viewport.update clamp
  dsimp only
  generalize v.max_height.fdiv 2 = k
  refine ⟨rfl, ?_, ?_, ?_⟩ <;> intros <;> omega

/-- Witness for C5 at a concrete viewport: `max_height = 5`, 20 items,
cursor at index 10. -/
theorem C5_witness :
    1 ≤ (Viewport.init 5).max_height ∧ 0 ≤ (20 : Int) ∧
    ((Viewport.init 5).update 20 10).offset =
      clamp (10 - (Viewport.init 5).max_height.fdiv 2) 0
        (max 0 (20 - (Viewport.init 5).max_height)) ∧
    0 ≤ ((Viewport.init 5).update 20 10).offset := by
  refine ⟨by decide, by decide, ?_, ?_⟩
  · exact (C5_viewport_update (Viewport.init 5) 20 10 (by decide) (by decide)).1
  · exact (C5_viewport_update (Viewport.init 5) 20 10 (by decide) (by decide)).2.1

/-- When the current display is fetchable, `set_current_mode_index` stores
the index under its persistent id. -/
theorem set_mode_index_eq (s : SwitcherState) (d : Display) (idx : Int)
    (hd : pyListGet s.displays s.current_display_index = some d) :
    set_current_mode_index s idx =
      some { s with current_mode_indices :=
               dictSet s.current_mode_indices d.persistent_id idx } := by
  unfold set_current_mode_index
  rw [if_pos (pyListGet_some_lt hd), hd, Option.map_some']

/-- Reading the cursor back after storing it yields the stored value. -/
theorem get_after_set (s : SwitcherState) (d : Display) (idx : Int)
    (hd : pyListGet s.displays s.current_display_index = some d) :
    get_current_mode_index
        { s with current_mode_indices :=
            dictSet s.current_mode_indices d.persistent_id idx } =
      some idx := by
  unfold get_current_mode_index
  dsimp only
  rw [if_pos (pyListGet_some_lt hd), hd, Option.map_some', dictGetD_dictSet_self]

/-- A mode-navigation event on a state whose current display is `d` (with a
non-empty mode list) and whose cursor reads `i` stores the event's new
cursor value. -/
theorem step_mode_eq (s : SwitcherState) (d : Display) (mh i : Int) (e : NavEvent)
    (hd : pyListGet s.displays s.current_display_index = some d)
    (hL : d.modes ≠ [])
    (hi : get_current_mode_index s = some i)
    (hmode : e = NavEvent.prevMode ∨ e = NavEvent.nextMode ∨
             e = NavEvent.pageUp ∨ e = NavEvent.pageDown) :
    stepEvent mh e s =
      set_current_mode_index s
        (match e with
         | NavEvent.prevMode => if i = 0 then (d.modes.length : Int) - 1 else i - 1
         | NavEvent.nextMode => if i = (d.modes.length : Int) - 1 then 0 else i + 1
         | NavEvent.pageUp => max 0 (i - max 5 (mh.fdiv 2))
         | NavEvent.pageDown => min ((d.modes.length : Int) - 1) (i + max 5 (mh.fdiv 2))
         | _ => 0) := by
  have hE : d.modes.isEmpty = false := by simp [List.isEmpty_iff, hL]
  rcases hmode with h | h | h | h <;> subst h <;>
    simp only [stepEvent, hd, Option.bind_eq_bind, Option.some_bind, hE,
      Bool.false_eq_true, if_false, hi]

/-- C6: single-step mode navigation wraps at both ends, page navigation
jumps by `max 5 (viewport_height / 2)` (floor division) and clamps to the
list bounds, never wrapping. -/
theorem C6_mode_navigation (s : SwitcherState) (d : Display) (mh i : Int)
    (hd : pyListGet s.displays s.current_display_index = some d)
    (hL : d.modes ≠ [])
    (hi : get_current_mode_index s = some i)
    (hlo : 0 ≤ i) (hhi : i ≤ (d.modes.length : Int) - 1) :
    ((stepEvent mh NavEvent.prevMode s).bind get_current_mode_index =
       some (if i = 0 then (d.modes.length : Int) - 1 else i - 1)) ∧
    ((stepEvent mh NavEvent.nextMode s).bind get_current_mode_index =
       some (if i = (d.modes.length : Int) - 1 then 0 else i + 1)) ∧
    ((stepEvent mh NavEvent.pageUp s).bind get_current_mode_index =
       some (max 0 (i - max 5 (mh.fdiv 2)))) ∧
    ((stepEvent mh NavEvent.pageDown s).bind get_current_mode_index =
       some (min ((d.modes.length : Int) - 1) (i + max 5 (mh.fdiv 2)))) := by
  refine ⟨?_, ?_, ?_, ?_⟩ <;>
    rw [step_mode_eq s d mh i _ hd hL hi (by simp), set_mode_index_eq s d _ hd,
        Option.some_bind, get_after_set s d _ hd]

/-- Witness for C6 on the two-display state built by parsing
`scenarioReport`: with the first display selected and its cursor at index 0
of three modes, previous-mode wraps to index 2, next-mode moves to 1,
page-up stays at 0 and page-down clamps to 2. -/
theorem C6_witness :
    pyListGet scenState.displays scenState.current_display_index = some scenD1 ∧
    (stepEvent 4 NavEvent.prevMode scenState).bind get_current_mode_index = some 2 ∧
    (stepEvent 4 NavEvent.nextMode scenState).bind get_current_mode_index = some 1 ∧
    (stepEvent 4 NavEvent.pageUp scenState).bind get_current_mode_index = some 0 ∧
    (stepEvent 4 NavEvent.pageDown scenState).bind get_current_mode_index = some 2 := by
  have h := C6_mode_navigation scenState scenD1 4 0 (by decide) (by decide) (by decide)
    (by decide) (by decide)
  exact ⟨by decide, by simpa using h.1, by simpa using h.2.1,
    by simpa using h.2.2.1, by simpa using h.2.2.2⟩

/-- Every display a block parses to has its modes sorted by `sortModes`. -/
theorem parseBlock_modes {b : List Char} {d : Display}
    (h : parseBlock b = some d) : ∃ ms, d.modes = sortModes ms := by
  simp only [parseBlock] at h
  cases hf : (pySplit litNl (pyStrip b)).foldlM applyScalarLine initFields with
  | none => rw [hf] at h; simp at h
  | some f =>
    rw [hf] at h
    simp only [Option.bind_eq_bind, Option.some_bind, Option.some.injEq] at h
    refine ⟨(collectModes (pySplit litNl (pyStrip b)) false [] f.current_mode).1, ?_⟩
    rw [← h]

/-- Every display in a parsed display list comes from some block. -/
theorem parseDisplays_mem :
    ∀ {bs : List (List Char)} {ds : List Display}, parseDisplays bs = some ds →
      ∀ d ∈ ds, ∃ b, parseBlock b = some d := by
  intro bs
  induction bs with
  | nil =>
    intro ds h d hd
    simp only [parseDisplays, Option.some.injEq] at h
    subst h
    simp at hd
  | cons b rest ih =>
    intro ds h d hd
    unfold parseDisplays at h
    split at h
    · cases hb : parseBlock b with
      | none => rw [hb] at h; simp at h
      | some d0 =>
        rw [hb] at h
        cases hr : parseDisplays rest with
        | none => rw [hr] at h; simp at h
        | some ds0 =>
          rw [hr] at h
          simp only [Option.bind_eq_bind, Option.some_bind, Option.some.injEq] at h
          subst h
          rcases List.mem_cons.mp hd with h1 | h1
          · exact ⟨b, by rw [hb, h1]⟩
          · exact ih hr d h1
    · exact ih h d hd

/-- C4: modes of every parsed display are sorted by the fixed total order
(high-density first, then descending width, then descending refresh rate),
whatever the input order of the mode lines; in particular the scenario
report with first-display input order 1920x1080@60, 2560x1440@60,
1280x720@60 (HiDPI) parses to the sorted order 1280x720@60 (HiDPI),
2560x1440@60, 1920x1080@60. -/
theorem C4_modes_sorted :
    (∀ (out : String) (s : SwitcherState), parse_displayplacer_output out = some s →
       ∀ d ∈ s.displays, List.Sorted modeLe d.modes) ∧
    (parse_displayplacer_output scenarioReport).map
        (fun s => s.displays.map (fun d => d.modes)) =
      some [[m720h, m1440, m1080], [m900]] := by
  constructor
  · intro out s hp d hd
    unfold parse_displayplacer_output at hp
    cases hds : parseDisplays (pySplit litNlNl out.data) with
    | none => rw [hds] at hp; simp at hp
    | some ds =>
      rw [hds] at hp
      simp only [Option.bind_eq_bind, Option.some_bind, Option.some.injEq] at hp
      have hdisp : s.displays = ds := by rw [← hp]
      rw [hdisp] at hd
      obtain ⟨b, hb⟩ := parseDisplays_mem hds d hd
      obtain ⟨ms, hm⟩ := parseBlock_modes hb
      rw [hm]
      exact List.sorted_insertionSort modeLe ms
  · decide

/-- Witness for C4: the scenario report parses to `scenState`, and both its
displays' mode lists are sorted. -/
theorem C4_witness :
    parse_displayplacer_output scenarioReport = some scenState ∧
    ∀ d ∈ scenState.displays, List.Sorted modeLe d.modes := by
  refine ⟨by decide, ?_⟩
  exact C4_modes_sorted.1 scenarioReport scenState (by decide)

/-- A list of modes with pairwise-distinct ordinals matches any given
ordinal value at most once. -/
theorem countP_modes_le_one (ms : List DisplayMode) (c : Int)
    (h : ms.Pairwise (fun a b => a.mode_num ≠ b.mode_num)) :
    ms.countP (fun m => m.mode_num == c) ≤ 1 := by
  induction ms with
  | nil => simp
  | cons m rest ih =>
    rw [List.countP_cons]
    rcases List.pairwise_cons.mp h with ⟨hm, hrest⟩
    by_cases hc : m.mode_num = c
    · have h0 : rest.countP (fun x => x.mode_num == c) = 0 := by
        rw [List.countP_eq_zero]
        intro x hx
        have hne := hm x hx
        simp only [beq_iff_eq]
        omega
      rw [h0]
      simp [hc]
    · have := ih hrest
      rw [if_neg (by simp [hc])]
      omega

/-- C8 (amended): for every display produced by parsing a report, if its
mode ordinals are pairwise distinct (the documented invariant on the
external tool's report), then at most one mode has ordinal equal to the
display's active-mode ordinal; zero matches remain a valid state. -/
theorem C8_at_most_one_current (out : String) (s : SwitcherState)
    (hp : parse_displayplacer_output out = some s) (d : Display)
    (hd : d ∈ s.displays)
    (hnodup : d.modes.Pairwise (fun a b => a.mode_num ≠ b.mode_num)) :
    d.modes.countP (fun m => m.mode_num == d.current_mode) ≤ 1 :=
  countP_modes_le_one d.modes d.current_mode hnodup

/-- C8 counterexample: the claim fails as stated, because the parser accepts
a block repeating one mode ordinal; in `dupOrdReport` the ordinal 7 appears
on two mode lines, the second carrying the current-mode marker, and both
parsed modes then match the active-mode ordinal. -/
theorem C8_counterexample :
    ¬ (∀ (out : String) (s : SwitcherState),
        parse_displayplacer_output out = some s →
        ∀ d ∈ s.displays,
          d.modes.countP (fun m => m.mode_num == d.current_mode) ≤ 1) := by
  intro hclaim
  have hs : (parse_displayplacer_output dupOrdReport).isSome = true := by decide
  obtain ⟨s, hs'⟩ := Option.isSome_iff_exists.mp hs
  have hm : (parse_displayplacer_output dupOrdReport).map
      (fun t => t.displays.map
        (fun d => d.modes.countP (fun m => m.mode_num == d.current_mode))) =
      some [2] := by decide
  rw [hs', Option.map_some'] at hm
  simp only [Option.some.injEq] at hm
  cases hds : s.displays with
  | nil => rw [hds] at hm; simp at hm
  | cons d0 rest =>
    rw [hds] at hm
    simp only [List.map_cons, List.cons.injEq] at hm
    have hle := hclaim dupOrdReport s hs' d0 (by rw [hds]; exact List.mem_cons_self d0 rest)
    rw [hm.1] at hle
    omega

/-- Witness for C8 at `noMarkerReport`: distinct ordinals, no current-mode
marker, so zero modes match — a valid state, and at most one. -/
theorem C8_witness :
    parse_displayplacer_output noMarkerReport = some nmState ∧
    (∀ d ∈ nmState.displays,
       d.modes.countP (fun m => m.mode_num == d.current_mode) ≤ 1) ∧
    nmState.displays.map
      (fun d => d.modes.countP (fun m => m.mode_num == d.current_mode)) = [0] := by
  refine ⟨by decide, ?_, by decide⟩
  intro d hd
  exact C8_at_most_one_current noMarkerReport nmState (by decide) d hd
    (by
      have : d = nmState.displays[0] := by
        simpa [nmState] using hd
      rw [this]
      decide)

/-- Reading back the position written by `pyListSet`. -/
theorem pyListGet_pyListSet_self {α : Type} (l : List α) (i : Int) (a : α)
    (h0 : 0 ≤ i) (hlt : i < (l.length : Int)) :
    pyListGet (pyListSet l i a) i = some a := by
  unfold pyListGet pyListSet
  rw [if_pos h0, if_pos h0]
  have h : i.toNat < l.length := by omega
  simp [List.getElem?_set_self', List.getElem?_eq_getElem, h]

/-- `pyListSet` leaves every other position unchanged. -/
theorem getElem?_pyListSet_ne {α : Type} (l : List α) (i : Int) (a : α) (j : Nat)
    (h0 : 0 ≤ i) (hne : (j : Int) ≠ i) :
    (pyListSet l i a)[j]? = l[j]? := by
  unfold pyListSet
  rw [if_pos h0]
  exact List.getElem?_set_ne (by omega)

/-- A status message prefixed with `"Error: "` is never empty. -/
theorem msgError_append_ne_empty (t : String) : msgErrorPre ++ t ≠ "" := by
  intro h
  have hd : (msgErrorPre ++ t).data = ([] : List Char) := by rw [h]
  rw [String.data_append] at hd
  have : msgErrorPre.data = ['E', 'r', 'r', 'o', 'r', ':', ' '] := by decide
  rw [this] at hd
  simp at hd

/-- C2: when the collaborator confirms success, `apply_mode` updates exactly
the target display's active-mode ordinal, resolution and refresh rate to the
applied mode's values, leaves its every other field and every other display
unchanged, and the command handed to the collaborator was built from the
pre-call state. -/
theorem C2_apply_success (collab : List String → Except String Unit)
    (s : SwitcherState) (d : Display) (i : Int) (sel : DisplayMode)
    (h0 : 0 ≤ s.current_display_index)
    (hd : pyListGet s.displays s.current_display_index = some d)
    (hi : get_current_mode_index s = some i)
    (hlt : i < (d.modes.length : Int))
    (hsel : pyListGet d.modes i = some sel)
    (hok : collab (buildCmdArgs s.displays d sel) = Except.ok ()) :
    apply_mode collab s =
      some ({ s with
              displays := pyListSet s.displays s.current_display_index (updApplied d sel)
              status_message := msgApplied
              status_timeout := 30 }, some (buildCmdArgs s.displays d sel)) ∧
    pyListGet (pyListSet s.displays s.current_display_index (updApplied d sel))
        s.current_display_index = some (updApplied d sel) ∧
    (updApplied d sel).current_mode = sel.mode_num ∧
    (updApplied d sel).current_resolution = sel.resolution ∧
    (updApplied d sel).current_hertz = sel.hertz ∧
    (updApplied d sel).persistent_id = d.persistent_id ∧
    (updApplied d sel).contextual_id = d.contextual_id ∧
    (updApplied d sel).serial_id = d.serial_id ∧
    (updApplied d sel).display_type = d.display_type ∧
    (updApplied d sel).origin = d.origin ∧
    (updApplied d sel).modes = d.modes ∧
    (∀ j : Nat, (j : Int) ≠ s.current_display_index →
       (pyListSet s.displays s.current_display_index (updApplied d sel))[j]? =
         s.displays[j]?) := by
  have hlen := pyListGet_some_lt hd
  refine ⟨?_, ?_, rfl, rfl, rfl, rfl, rfl, rfl, rfl, rfl, rfl, ?_⟩
  · simp only [apply_mode, hd, hi, Option.bind_eq_bind, Option.some_bind]
    rw [if_neg (by omega)]
    simp only [hsel, Option.some_bind, hok, updApplied]
  · exact pyListGet_pyListSet_self _ _ _ h0 hlen
  · intro j hj
    exact getElem?_pyListSet_ne _ _ _ _ h0 hj

/-- C3: when the collaborator reports failure, `apply_mode` leaves every
display and the highlighted mode selection untouched and only sets the
transient timed status message (the stripped stderr text, or `Failed` when
it is empty, behind the `Error: ` prefix, with timeout 50). -/
theorem C3_apply_failure (collab : List String → Except String Unit)
    (s : SwitcherState) (d : Display) (i : Int) (sel : DisplayMode) (e : String)
    (hd : pyListGet s.displays s.current_display_index = some d)
    (hi : get_current_mode_index s = some i)
    (hlt : i < (d.modes.length : Int))
    (hsel : pyListGet d.modes i = some sel)
    (herr : collab (buildCmdArgs s.displays d sel) = Except.error e) :
    apply_mode collab s =
      some ({ s with
              status_message :=
                msgErrorPre ++ (if e.data = [] then msgFailed else (pyStrip e.data).asString)
              status_timeout := 50 }, some (buildCmdArgs s.displays d sel)) ∧
    ({ s with
       status_message :=
         msgErrorPre ++ (if e.data = [] then msgFailed else (pyStrip e.data).asString)
       status_timeout := 50 } : SwitcherState).displays = s.displays ∧
    ({ s with
       status_message :=
         msgErrorPre ++ (if e.data = [] then msgFailed else (pyStrip e.data).asString)
       status_timeout := 50 } : SwitcherState).current_mode_indices =
      s.current_mode_indices ∧
    msgErrorPre ++ (if e.data = [] then msgFailed else (pyStrip e.data).asString) ≠ "" ∧
    (0 : Int) < 50 := by
  refine ⟨?_, rfl, rfl, msgError_append_ne_empty _, by omega⟩
  simp only [apply_mode, hd, hi, Option.bind_eq_bind, Option.some_bind]
  rw [if_neg (by omega)]
  simp only [hsel, Option.some_bind, herr]

/-- Witness for C2: applying the highlighted HiDPI mode of the first
scenario display with an always-succeeding collaborator. -/
theorem C2_witness :
    apply_mode collabOk scenState =
      some ({ scenState with
              displays :=
                pyListSet scenState.displays scenState.current_display_index
                  (updApplied scenD1 m720h)
              status_message := msgApplied
              status_timeout := 30 },
            some (buildCmdArgs scenState.displays scenD1 m720h)) :=
  (C2_apply_success collabOk scenState scenD1 0 m720h (by decide) (by decide)
    (by decide) (by decide) (by decide) rfl).1

/-- Witness for C3: the same apply with an always-failing collaborator
leaves the displays untouched and sets the timed error message. -/
theorem C3_witness :
    apply_mode collabErr scenState =
      some ({ scenState with
              status_message :=
                msgErrorPre ++
                  (if (" boom " : String).data = [] then msgFailed
                   else (pyStrip (" boom " : String).data).asString)
              status_timeout := 50 },
            some (buildCmdArgs scenState.displays scenD1 m720h)) ∧
    msgErrorPre ++
        (if (" boom " : String).data = [] then msgFailed
         else (pyStrip (" boom " : String).data).asString) ≠ "" := by
  have h := C3_apply_failure collabErr scenState scenD1 0 m720h " boom " (by decide)
    (by decide) (by decide) (by decide) rfl
  exact ⟨h.1, h.2.2.2.1⟩

/-- The command list built by Python `==` targeting agrees with the
position-targeted list the specification describes, provided no non-target
position holds a record structurally equal to the target display. -/
theorem buildCmd_eq_spec (displays : List Display) (d : Display) (sel : DisplayMode)
    (p : Int) (h0 : 0 ≤ p) (hd : pyListGet displays p = some d)
    (hun : ∀ j : Nat, j < displays.length → displays[j]? = some d →
             (j : Int) = p) :
    buildCmdArgs displays d sel = specCmdArgs displays p sel := by
  unfold buildCmdArgs specCmdArgs
  apply List.ext_getElem (by simp)
  intro n h1 h2
  have hn : n < displays.length := by simpa using h1
  rw [List.getElem_map, List.getElem_map, List.getElem_enum]
  by_cases he : displays[n] = d
  · rw [if_pos he, if_pos (hun n hn (by rw [List.getElem?_eq_getElem hn, he]))]
  · rw [if_neg he, if_neg ?_]
    intro hnp
    obtain ⟨hlt, hget⟩ := pyListGet_nonneg_some h0 hd
    have hnn : n = p.toNat := by
      simp only at hnp
      omega
    subst hnn
    exact he hget

/-- C1 (amended): a run of `apply_mode` on a state whose displays contain no
non-target record structurally equal to the target hands the collaborator
exactly the spec-described list: one `id:... mode:... origin:(x,y) degree:0`
instruction per display in list order, the target position carrying the
selected mode's ordinal and every other position its presently-active
ordinal with unchanged origin and degree 0. -/
theorem C1_apply_command_construction (collab : List String → Except String Unit)
    (s : SwitcherState) (d : Display) (i : Int) (sel : DisplayMode)
    (h0 : 0 ≤ s.current_display_index)
    (hd : pyListGet s.displays s.current_display_index = some d)
    (hi : get_current_mode_index s = some i)
    (hlt : i < (d.modes.length : Int))
    (hsel : pyListGet d.modes i = some sel)
    (hun : ∀ j : Nat, j < s.displays.length → s.displays[j]? = some d →
             (j : Int) = s.current_display_index) :
    (apply_mode collab s).map (fun r => r.2) =
      some (some (specCmdArgs s.displays s.current_display_index sel)) := by
  have hb := buildCmd_eq_spec s.displays d sel s.current_display_index h0 hd hun
  simp only [apply_mode, hd, hi, Option.bind_eq_bind, Option.some_bind]
  rw [if_neg (by omega)]
  simp only [hsel, Option.some_bind]
  cases hcol : collab (buildCmdArgs s.displays d sel) <;>
    simp [hb]

/-- Witness for C1 on the scenario state (distinct persistent ids): the
collaborator receives exactly the spec-described instruction strings. -/
theorem C1_witness :
    (apply_mode collabOk scenState).map (fun r => r.2) =
      some (some (specCmdArgs scenState.displays scenState.current_display_index m720h)) ∧
    specCmdArgs scenState.displays scenState.current_display_index m720h =
      ["id:AAA-111 mode:2 origin:(0,0) degree:0",
       "id:BBB-222 mode:0 origin:(1920,0) degree:0"] := by
  refine ⟨?_, by decide⟩
  exact C1_apply_command_construction collabOk scenState scenD1 0 m720h (by decide)
    (by decide) (by decide) (by decide) (by decide) (by decide)

/-- C1 counterexample: on `dupReport`, whose two display blocks are word-for-
word identical, Python `==` matches both parsed displays against the target,
so the non-target display's instruction carries the newly selected ordinal 5
instead of its presently-active ordinal 1 — the claim fails as stated. -/
theorem C1_counterexample :
    parse_displayplacer_output dupReport = some dupState ∧
    ¬ (∀ (collab : List String → Except String Unit) (s : SwitcherState)
         (d : Display) (i : Int) (sel : DisplayMode),
        0 ≤ s.current_display_index →
        pyListGet s.displays s.current_display_index = some d →
        get_current_mode_index s = some i →
        i < (d.modes.length : Int) →
        pyListGet d.modes i = some sel →
        (apply_mode collab s).map (fun r => r.2) =
          some (some (specCmdArgs s.displays s.current_display_index sel))) := by
  refine ⟨by decide, ?_⟩
  intro h
  have hinst := h collabOk dupState dupD 0 dup800 (by decide) (by decide) (by decide)
    (by decide) (by decide)
  have hne : (apply_mode collabOk dupState).map (fun r => r.2) ≠
      some (some (specCmdArgs dupState.displays dupState.current_display_index dup800)) := by
    decide
  exact hne hinst

/-- C7 (amended): a report parsing to zero displays is fatal — the message
`No displays found!` is shown, the interactive loop is never entered — and
the process then exits with status 0 (not non-zero), exactly like the
unavailable-tool case, where `run` also shows a message and returns
normally. -/
theorem C7_zero_displays (out : String) (s : SwitcherState)
    (hp : parse_displayplacer_output out = some s) (hz : s.displays = []) :
    runOutcome (Except.ok out) = RunOutcome.noDisplays ∧
    runEntersLoop (runOutcome (Except.ok out)) = false ∧
    fatalShown (runOutcome (Except.ok out)) = some "No displays found!" ∧
    exit_status_after_run (runOutcome (Except.ok out)) = 0 ∧
    (∀ e : String, runEntersLoop (runOutcome (Except.error e)) = false ∧
       exit_status_after_run (runOutcome (Except.error e)) = 0) := by
  have h1 : runOutcome (Except.ok out) = RunOutcome.noDisplays := by
    simp only [runOutcome, hp]
    simp [hz]
  exact ⟨h1, by rw [h1]; rfl, by rw [h1]; rfl, rfl, fun e => ⟨rfl, rfl⟩⟩

/-- C7 counterexample: for the empty report (zero displays parsed) the
interactive loop is indeed never entered, but the process exits with status
0 — `run` swallows the condition and `main` never calls `sys.exit` — so the
claimed non-zero exit is false. -/
theorem C7_counterexample :
    parse_displayplacer_output "" = some emptyState ∧
    ¬ (∀ (out : String) (s : SwitcherState),
        parse_displayplacer_output out = some s → s.displays = [] →
        runEntersLoop (runOutcome (Except.ok out)) = false ∧
        exit_status_after_run (runOutcome (Except.ok out)) ≠ 0) := by
  refine ⟨by decide, ?_⟩
  intro h
  exact (h "" emptyState (by decide) rfl).2 rfl

/-- Witness for C7 at the empty report. -/
theorem C7_witness :
    runOutcome (Except.ok "") = RunOutcome.noDisplays ∧
    runEntersLoop (runOutcome (Except.ok "")) = false ∧
    fatalShown (runOutcome (Except.ok "")) = some "No displays found!" ∧
    exit_status_after_run (runOutcome (Except.ok "")) = 0 := by
  have h := C7_zero_displays "" emptyState (by decide) rfl
  exact ⟨h.1, h.2.1, h.2.2.1, h.2.2.2.1⟩

/-- C9 (amended): mode cursors are stored per persistent identifier, so
setting the cursor while display `dc` is selected stores the index under
`dc`'s persistent id, leaves the cursor of every display with a different
persistent id unchanged (under pairwise-distinct persistent ids this is
every other display), and display-switch events never touch the cursor
storage, so switching away and back preserves every display's cursor. -/
theorem C9_per_display_cursors :
    (∀ (s : SwitcherState) (idx : Int) (dc : Display) (s' : SwitcherState),
       pyListGet s.displays s.current_display_index = some dc →
       set_current_mode_index s idx = some s' →
       (∀ dj : Display, dj.persistent_id ≠ dc.persistent_id →
          cursorOfD s' dj = cursorOfD s dj) ∧
       cursorOfD s' dc = idx ∧
       s'.displays = s.displays ∧
       s'.current_display_index = s.current_display_index) ∧
    (∀ (s : SwitcherState) (mh : Int) (e : NavEvent),
       (e = NavEvent.prevDisplay ∨ e = NavEvent.nextDisplay) →
       (stepEvent mh e s).map (fun t => (t.displays, t.current_mode_indices)) =
         some (s.displays, s.current_mode_indices)) := by
  constructor
  · intro s idx dc s' hdc hset
    rw [set_mode_index_eq s dc idx hdc, Option.some.injEq] at hset
    subst hset
    refine ⟨fun dj hne => ?_, ?_, rfl, rfl⟩
    · unfold cursorOfD
      exact dictGetD_dictSet_ne _ _ _ hne
    · unfold cursorOfD
      exact dictGetD_dictSet_self _ _ _ _
  · intro s mh e he
    rcases he with h | h <;> subst h <;> simp only [stepEvent] <;> split <;> rfl

/-- C9 counterexample: two parse-shaped displays sharing persistent id `X`
(differing in serial id and origin) share one stored cursor — setting the
cursor while the first is selected also changes the second's stored cursor,
so the claim's "changes no other display's" fails as stated. -/
theorem C9_counterexample :
    pyListGet twinState.displays twinState.current_display_index = some twinA ∧
    twinB ∈ twinState.displays ∧ twinB ≠ twinA ∧
    ¬ (∀ (s : SwitcherState) (idx : Int) (dc : Display) (s' : SwitcherState),
        pyListGet s.displays s.current_display_index = some dc →
        set_current_mode_index s idx = some s' →
        ∀ dj ∈ s.displays, dj ≠ dc → cursorOfD s' dj = cursorOfD s dj) := by
  refine ⟨by decide, by decide, by decide, ?_⟩
  intro h
  have hset : set_current_mode_index twinState 3 =
      some { twinState with current_mode_indices := [("X", 3)] } := by decide
  have hinst := h twinState 3 twinA _ (by decide) hset twinB (by decide) (by decide)
  have hne : cursorOfD { twinState with current_mode_indices := [("X", 3)] } twinB ≠
      cursorOfD twinState twinB := by decide
  exact hne hinst

/-- Witness for C9 on the distinct-pid scenario state: setting the first
display's cursor to 2 stores 2 for it and leaves the second display's
cursor unchanged; a display-switch event touches neither displays nor
cursor storage. -/
theorem C9_witness :
    ∃ s', set_current_mode_index scenState 2 = some s' ∧
      cursorOfD s' scenD2 = cursorOfD scenState scenD2 ∧
      cursorOfD s' scenD1 = 2 ∧
      (stepEvent 4 NavEvent.nextDisplay scenState).map
          (fun t => (t.displays, t.current_mode_indices)) =
        some (scenState.displays, scenState.current_mode_indices) := by
  have hset : set_current_mode_index scenState 2 =
      some { scenState with
             current_mode_indices := [("AAA-111", 2), ("BBB-222", 0)] } := by decide
  have h := C9_per_display_cursors.1 scenState 2 scenD1 _ (by decide) hset
  exact ⟨_, hset, h.1 scenD2 (by decide), h.2.1,
    C9_per_display_cursors.2 scenState 4 NavEvent.nextDisplay (Or.inr rfl)⟩

/-- A dictionary whose values are all zero reads zero everywhere. -/
theorem dictGetD_zero (m : List (String × Int)) (h : ∀ kv ∈ m, kv.2 = 0)
    (k : String) : dictGetD m k 0 = 0 := by
  induction m with
  | nil => rfl
  | cons p rest ih =>
    obtain ⟨k0, v0⟩ := p
    unfold dictGetD
    by_cases hk : k0 = k
    · rw [if_pos hk]
      exact h (k0, v0) (List.mem_cons_self _ _)
    · rw [if_neg hk]
      exact ih (fun kv hkv => h kv (List.mem_cons_of_mem _ hkv))

/-- Entries of `dictSet m k v` are the new entry or old entries. -/
theorem mem_dictSet (m : List (String × Int)) (k : String) (v : Int)
    (kv : String × Int) (h : kv ∈ dictSet m k v) : kv = (k, v) ∨ kv ∈ m := by
  induction m with
  | nil =>
    simp only [dictSet] at h
    exact Or.inl (by simpa using h)
  | cons p rest ih =>
    obtain ⟨k0, v0⟩ := p
    unfold dictSet at h
    by_cases hk : k0 = k
    · rw [if_pos hk] at h
      rcases List.mem_cons.mp h with h1 | h1
      · exact Or.inl h1
      · exact Or.inr (List.mem_cons_of_mem _ h1)
    · rw [if_neg hk] at h
      rcases List.mem_cons.mp h with h1 | h1
      · exact Or.inr (by rw [h1]; exact List.mem_cons_self _ _)
      · rcases ih h1 with h2 | h2
        · exact Or.inl h2
        · exact Or.inr (List.mem_cons_of_mem _ h2)

/-- The cursor dictionary the parser builds maps every key to zero. -/
theorem foldl_dictSet_zero (ds : List Display) :
    ∀ (m : List (String × Int)), (∀ kv ∈ m, kv.2 = 0) →
      ∀ kv ∈ ds.foldl (fun m d => dictSet m d.persistent_id 0) m, kv.2 = 0 := by
  induction ds with
  | nil => intro m hm kv hkv; exact hm kv hkv
  | cons d rest ih =>
    intro m hm kv hkv
    rw [List.foldl_cons] at hkv
    refine ih (dictSet m d.persistent_id 0) ?_ kv hkv
    intro kv' hkv'
    rcases mem_dictSet m d.persistent_id 0 kv' hkv' with h | h
    · rw [h]
    · exact hm kv' h

/-- Structure of a successfully parsed state. -/
theorem parse_struct {out : String} {s : SwitcherState}
    (hp : parse_displayplacer_output out = some s) :
    ∃ ds, parseDisplays (pySplit litNlNl out.data) = some ds ∧
      s = { displays := ds
          , current_display_index := 0
          , current_mode_indices := ds.foldl (fun m d => dictSet m d.persistent_id 0) []
          , status_message := ""
          , status_timeout := 0 } := by
  unfold parse_displayplacer_output at hp
  cases hds : parseDisplays (pySplit litNlNl out.data) with
  | none => rw [hds] at hp; simp at hp
  | some ds =>
    rw [hds] at hp
    simp only [Option.bind_eq_bind, Option.some_bind, Option.some.injEq] at hp
    exact ⟨ds, rfl, hp.symm⟩

/-- Storing an in-range cursor for the current display preserves the
navigation invariant (this is where pairwise-distinct persistent ids are
needed: the store can only affect displays sharing the current display's
key, and distinctness makes that the current display alone). -/
theorem set_preserves_inv (s : SwitcherState) (d : Display) (v : Int)
    (hInv : NavInv s)
    (hd : pyListGet s.displays s.current_display_index = some d)
    (hv0 : 0 ≤ v) (hvlt : v < (d.modes.length : Int)) :
    NavInv { s with current_mode_indices :=
               dictSet s.current_mode_indices d.persistent_id v } := by
  obtain ⟨h0, hlen, hdist, hcur⟩ := hInv
  refine ⟨h0, hlen, hdist, ?_⟩
  intro d' hd'
  by_cases hpid : d'.persistent_id = d.persistent_id
  · have hdd : d' = d := by
      by_contra hne
      have hpair : s.displays.Pairwise
          (fun a b => a.persistent_id ≠ b.persistent_id) := hdist
      exact (hpair.forall (fun a b hab => Ne.symm hab) hd' (pyListGet_mem hd) hne) hpid
    subst hdd
    unfold cursorOfD
    simp only
    rw [hpid, dictGetD_dictSet_self]
    exact ⟨hv0, fun _ => hvlt⟩
  · unfold cursorOfD
    simp only
    rw [dictGetD_dictSet_ne _ _ _ hpid]
    exact hcur d' hd'

/-- Every navigation event, taken from a state satisfying the invariant,
succeeds and preserves the invariant. -/
theorem stepEvent_preserves (s : SwitcherState) (mh : Int) (e : NavEvent)
    (hInv : NavInv s) : ∃ s', stepEvent mh e s = some s' ∧ NavInv s' := by
  obtain ⟨h0, hlen, hdist, hcur⟩ := hInv
  have hnn : s.current_display_index.toNat < s.displays.length := by omega
  rcases hd0 : s.displays[s.current_display_index.toNat]? with _ | d
  · rw [List.getElem?_eq_none_iff] at hd0
    omega
  have hd : pyListGet s.displays s.current_display_index = some d := by
    rw [pyListGet_nonneg _ _ h0]
    exact hd0
  have hdmem : d ∈ s.displays := pyListGet_mem hd
  have hget : get_current_mode_index s = some (cursorOfD s d) := by
    unfold get_current_mode_index
    rw [if_pos hlen, hd, Option.map_some']
    rfl
  have hInv' : NavInv s := ⟨h0, hlen, hdist, hcur⟩
  have hLpos : (0 : Int) < s.displays.length := by omega
  cases e with
  | prevDisplay =>
    by_cases h1 : 1 < s.displays.length
    · refine ⟨_, by simp only [stepEvent]; rw [if_pos h1], ?_⟩
      exact ⟨Int.emod_nonneg _ (by omega), Int.emod_lt_of_pos _ hLpos, hdist,
        fun d' hd' => hcur d' hd'⟩
    · exact ⟨s, by simp only [stepEvent]; rw [if_neg h1], hInv'⟩
  | nextDisplay =>
    by_cases h1 : 1 < s.displays.length
    · refine ⟨_, by simp only [stepEvent]; rw [if_pos h1], ?_⟩
      exact ⟨Int.emod_nonneg _ (by omega), Int.emod_lt_of_pos _ hLpos, hdist,
        fun d' hd' => hcur d' hd'⟩
    · exact ⟨s, by simp only [stepEvent]; rw [if_neg h1], hInv'⟩
  | prevMode =>
    by_cases hE : d.modes = []
    · refine ⟨s, ?_, hInv'⟩
      simp only [stepEvent, hd, Option.bind_eq_bind, Option.some_bind, hE]
      simp
    · have hL1 : 0 < d.modes.length := List.length_pos.mpr hE
      have hi0 := (hcur d hdmem).1
      have hilt := (hcur d hdmem).2 hE
      have hv0 : 0 ≤ (if cursorOfD s d = 0 then (d.modes.length : Int) - 1
          else cursorOfD s d - 1) := by
        split <;> omega
      have hvlt : (if cursorOfD s d = 0 then (d.modes.length : Int) - 1
          else cursorOfD s d - 1) < (d.modes.length : Int) := by
        split <;> omega
      refine ⟨_, ?_, set_preserves_inv s d _ hInv' hd hv0 hvlt⟩
      rw [step_mode_eq s d mh (cursorOfD s d) _ hd hE hget (by simp)]
      exact set_mode_index_eq s d _ hd
  | nextMode =>
    by_cases hE : d.modes = []
    · refine ⟨s, ?_, hInv'⟩
      simp only [stepEvent, hd, Option.bind_eq_bind, Option.some_bind, hE]
      simp
    · have hL1 : 0 < d.modes.length := List.length_pos.mpr hE
      have hi0 := (hcur d hdmem).1
      have hilt := (hcur d hdmem).2 hE
      have hv0 : 0 ≤ (if cursorOfD s d = (d.modes.length : Int) - 1 then 0
          else cursorOfD s d + 1) := by
        split <;> omega
      have hvlt : (if cursorOfD s d = (d.modes.length : Int) - 1 then 0
          else cursorOfD s d + 1) < (d.modes.length : Int) := by
        split <;> omega
      refine ⟨_, ?_, set_preserves_inv s d _ hInv' hd hv0 hvlt⟩
      rw [step_mode_eq s d mh (cursorOfD s d) _ hd hE hget (by simp)]
      exact set_mode_index_eq s d _ hd
  | pageUp =>
    by_cases hE : d.modes = []
    · refine ⟨s, ?_, hInv'⟩
      simp only [stepEvent, hd, Option.bind_eq_bind, Option.some_bind, hE]
      simp
    · have hL1 : 0 < d.modes.length := List.length_pos.mpr hE
      have hi0 := (hcur d hdmem).1
      have hilt := (hcur d hdmem).2 hE
      have hj5 : (5 : Int) ≤ max 5 (mh.fdiv 2) := le_max_left _ _
      have hv0 : 0 ≤ max 0 (cursorOfD s d - max 5 (mh.fdiv 2)) := le_max_left _ _
      have hvlt : max 0 (cursorOfD s d - max 5 (mh.fdiv 2)) < (d.modes.length : Int) := by
        rcases max_cases 0 (cursorOfD s d - max 5 (mh.fdiv 2)) with ⟨he, -⟩ | ⟨he, -⟩ <;>
          rw [he] <;> omega
      refine ⟨_, ?_, set_preserves_inv s d _ hInv' hd hv0 hvlt⟩
      rw [step_mode_eq s d mh (cursorOfD s d) _ hd hE hget (by simp)]
      exact set_mode_index_eq s d _ hd
  | pageDown =>
    by_cases hE : d.modes = []
    · refine ⟨s, ?_, hInv'⟩
      simp only [stepEvent, hd, Option.bind_eq_bind, Option.some_bind, hE]
      simp
    · have hL1 : 0 < d.modes.length := List.length_pos.mpr hE
      have hi0 := (hcur d hdmem).1
      have hilt := (hcur d hdmem).2 hE
      have hj5 : (5 : Int) ≤ max 5 (mh.fdiv 2) := le_max_left _ _
      have hv0 : 0 ≤ min ((d.modes.length : Int) - 1)
          (cursorOfD s d + max 5 (mh.fdiv 2)) := by
        rcases min_cases ((d.modes.length : Int) - 1)
          (cursorOfD s d + max 5 (mh.fdiv 2)) with ⟨he, -⟩ | ⟨he, -⟩ <;>
          rw [he] <;> omega
      have hvlt : min ((d.modes.length : Int) - 1)
          (cursorOfD s d + max 5 (mh.fdiv 2)) < (d.modes.length : Int) := by
        rcases min_cases ((d.modes.length : Int) - 1)
          (cursorOfD s d + max 5 (mh.fdiv 2)) with ⟨he, -⟩ | ⟨he, -⟩ <;>
          rw [he] <;> omega
      refine ⟨_, ?_, set_preserves_inv s d _ hInv' hd hv0 hvlt⟩
      rw [step_mode_eq s d mh (cursorOfD s d) _ hd hE hget (by simp)]
      exact set_mode_index_eq s d _ hd

/-- Event sequences preserve the invariant. -/
theorem runEvents_preserves (evs : List (Int × NavEvent)) :
    ∀ s : SwitcherState, NavInv s →
      ∃ s', runEvents evs s = some s' ∧ NavInv s' := by
  induction evs with
  | nil => intro s h; exact ⟨s, rfl, h⟩
  | cons p rest ih =>
    intro s h
    obtain ⟨s1, hs1, h1⟩ := stepEvent_preserves s p.1 p.2 h
    obtain ⟨s2, hs2, h2⟩ := ih s1 h1
    refine ⟨s2, ?_, h2⟩
    unfold runEvents at *
    rw [List.foldlM_cons, hs1]
    exact hs2

/-- Under the invariant, `apply_mode`'s defensive check fires exactly on an
empty mode list: then it fails fast with the `Invalid mode` status and never
invokes the collaborator; with a non-empty mode list the collaborator is
always invoked. -/
theorem apply_mode_guard (s : SwitcherState)
    (collab : List String → Except String Unit) (d : Display)
    (hInv : NavInv s)
    (hd : pyListGet s.displays s.current_display_index = some d) :
    (d.modes = [] →
       apply_mode collab s =
         some ({ s with status_message := msgInvalid, status_timeout := 30 }, none)) ∧
    (d.modes ≠ [] →
       ∃ r cmd, apply_mode collab s = some (r, some cmd)) := by
  obtain ⟨h0, hlen, hdist, hcur⟩ := hInv
  have hdmem : d ∈ s.displays := pyListGet_mem hd
  have hget : get_current_mode_index s = some (cursorOfD s d) := by
    unfold get_current_mode_index
    rw [if_pos hlen, hd, Option.map_some']
    rfl
  have hi0 := (hcur d hdmem).1
  constructor
  · intro hE
    simp only [apply_mode, hd, hget, Option.bind_eq_bind, Option.some_bind]
    rw [if_pos (by rw [hE]; simpa using hi0)]
  · intro hE
    have hilt := (hcur d hdmem).2 hE
    simp only [apply_mode, hd, hget, Option.bind_eq_bind, Option.some_bind]
    rw [if_neg (by omega)]
    have hnn : (cursorOfD s d).toNat < d.modes.length := by omega
    rcases hsel0 : d.modes[(cursorOfD s d).toNat]? with _ | sel
    · rw [List.getElem?_eq_none_iff] at hsel0
      omega
    have hsel : pyListGet d.modes (cursorOfD s d) = some sel := by
      rw [pyListGet_nonneg _ _ hi0]
      exact hsel0
    simp only [hsel, Option.some_bind]
    cases hcol : collab (buildCmdArgs s.displays d sel)
    · exact ⟨_, _, rfl⟩
    · exact ⟨_, _, rfl⟩

/-- C10 (amended, assuming pairwise-distinct persistent identifiers): the
parser initialises every display's mode cursor to 0 and, on a non-empty
display list, establishes the navigation invariant; every navigation event
(and every sequence of them) succeeds and preserves it, so every stored
cursor stays in range of its display's non-empty mode list; consequently
`apply_mode`'s defensive out-of-range check fires exactly when the current
display's mode list is empty, in which case it sets the `Invalid mode`
status and returns without invoking the collaborator. -/
theorem C10_cursor_invariant :
    (∀ (out : String) (s : SwitcherState),
       parse_displayplacer_output out = some s →
       ∀ d ∈ s.displays, cursorOfD s d = 0) ∧
    (∀ (out : String) (s : SwitcherState),
       parse_displayplacer_output out = some s →
       s.displays ≠ [] → pidDistinct s.displays → NavInv s) ∧
    (∀ (s : SwitcherState) (mh : Int) (e : NavEvent), NavInv s →
       ∃ s', stepEvent mh e s = some s' ∧ NavInv s') ∧
    (∀ (evs : List (Int × NavEvent)) (s : SwitcherState), NavInv s →
       ∃ s', runEvents evs s = some s' ∧ NavInv s') ∧
    (∀ (s : SwitcherState) (collab : List String → Except String Unit) (d : Display),
       NavInv s → pyListGet s.displays s.current_display_index = some d →
       (d.modes = [] →
          apply_mode collab s =
            some ({ s with status_message := msgInvalid, status_timeout := 30 }, none)) ∧
       (d.modes ≠ [] → ∃ r cmd, apply_mode collab s = some (r, some cmd))) := by
  have hzero : ∀ (out : String) (s : SwitcherState),
      parse_displayplacer_output out = some s →
      ∀ d ∈ s.displays, cursorOfD s d = 0 := by
    intro out s hp d hd
    obtain ⟨ds, -, hs⟩ := parse_struct hp
    subst hs
    unfold cursorOfD
    exact dictGetD_zero _
      (foldl_dictSet_zero ds [] (by intro kv h; simp at h)) _
  refine ⟨hzero, ?_, stepEvent_preserves, runEvents_preserves, apply_mode_guard⟩
  intro out s hp hne hdist
  have hz := hzero out s hp
  obtain ⟨ds, -, hs⟩ := parse_struct hp
  subst hs
  have hlen : 0 < ds.length := List.length_pos.mpr (by simpa using hne)
  refine ⟨by show (0 : Int) ≤ 0; exact le_refl 0,
    by show (0 : Int) < (ds.length : Int); omega, hdist, ?_⟩
  intro d hd
  rw [hz d hd]
  refine ⟨le_refl 0, fun hm => ?_⟩
  have := List.length_pos.mpr hm
  omega

/-- C10 counterexample: with two displays sharing persistent id `X` (six and
two modes), page-down on the first stores cursor 5 under `X`; after
switching to the second display (two modes, non-empty), Apply's defensive
check fires — `Invalid mode`, collaborator not invoked — refuting "the
check can only trigger when the mode list is empty". -/
theorem C10_counterexample :
    parse_displayplacer_output sharedPidReport = some shState0 ∧
    stepEvent 3 NavEvent.pageDown shState0 = some shState1 ∧
    stepEvent 3 NavEvent.nextDisplay shState1 = some shState2 ∧
    pyListGet shState2.displays shState2.current_display_index = some shB ∧
    shB.modes ≠ [] ∧
    apply_mode collabOk shState2 =
      some ({ shState2 with status_message := msgInvalid, status_timeout := 30 }, none) ∧
    ¬ (∀ (t : SwitcherState) (d : Display),
        pyListGet t.displays t.current_display_index = some d →
        apply_mode collabOk t =
          some ({ t with status_message := msgInvalid, status_timeout := 30 }, none) →
        d.modes = []) := by
  refine ⟨by decide, by decide, by decide, by decide, by decide, by decide, ?_⟩
  intro h
  have := h shState2 shB (by decide) (by decide)
  exact absurd this (by decide)

/-- Witness for C10: the scenario state satisfies the invariant, a
navigation event preserves it, and on a display with a non-empty mode list
the collaborator is reached. -/
theorem C10_witness :
    NavInv scenState ∧
    (∃ s', stepEvent 4 NavEvent.nextMode scenState = some s' ∧ NavInv s') ∧
    (scenD1.modes ≠ [] →
       ∃ r cmd, apply_mode collabOk scenState = some (r, some cmd)) := by
  refine ⟨by decide, ?_, ?_⟩
  · exact C10_cursor_invariant.2.2.1 scenState 4 NavEvent.nextMode (by decide)
  · exact (C10_cursor_invariant.2.2.2.2 scenState collabOk scenD1 (by decide) (by decide)).2
